import Mathlib

/-!
Shallow embedding of the MTP node wrapper (`src/lib/index.js`, second MTP
class; the first class is embedded separately under the `MTPv1` namespace
where a claim depends on it).  Device-side provider primitives
(`mtp-helper`, a native module that is not part of the JavaScript sources)
are modelled from the specification of the Device Storage Provider; the
wrapper logic itself is translated statement by statement from the source.
Every operation returns its result together with the list of provider
calls it issued, and mutating operations additionally return the updated
device store.  Recursive walks carry an explicit fuel argument (the
JavaScript recursion is unbounded); running out of fuel yields the
artificial error `Err.fuel`, which no source code path produces.
-/

/-- Modelled from the spec: the well-known root identifier
`MTP_FLAGS.FILES_AND_FOLDERS_ROOT` (the flags module is not under the
sources; only the existence of a distinguished root constant matters). -/
def FILES_AND_FOLDERS_ROOT : Nat := 4294967295

/-- Modelled from the spec: the provider file-type tag marking folders
(`MTP_FLAGS.FILETYPE_FOLDER`); only its distinctness matters. -/
def FILETYPE_FOLDER : Nat := 0

/-- Modelled from the spec: the provider file-type tag used for uploaded
files (`MTP_FLAGS.FILETYPE_UNKNOWN`); only its distinctness matters. -/
def FILETYPE_UNKNOWN : Nat := 44

/-- Error values of the wrapper, one per string in `this.ERR` of the
second MTP class, plus `fuel` (embedding artifact for exhausted fuel). -/
inductive Err where
  | noMtp
  | noStorage
  | localFolderNotFound
  | illegalFileName
  | renameFailed
  | fileInfoFailed
  | downloadFileFailed
  | uploadFileFailed
  | noFilesCopied
  | createFolderFailed
  | createFolderFileFailed
  | invalidPathResolve
  | invalidNotFound
  | fuel
deriving DecidableEq, Repr

/-- One provider (or local mkdir) call, recorded in issue order. -/
inductive PCall where
  | listCall (folderId : Nat)
  | createCall (name : String) (parentId : Nat)
  | deleteCall (fileId : Nat)
  | sendCall (filePath : String) (parentId : Nat)
  | renameCall (fileId : Nat) (newName : String)
  | metaCall (fileId : Nat)
  | getFileCall (fileId : Nat) (destPath : String)
  | mkdirCall (path : String)
  | getStorageCall
  | releaseCall
deriving DecidableEq, Repr

/-- A raw provider entry as returned by `Get_Files_And_Folders`. -/
structure RawFile where
  id : Nat
  name : String
  size : Nat
  type : Nat
  parentId : Nat
  storageId : Nat
  modificationDate : Nat
deriving DecidableEq, Repr

/-- A storage descriptor as returned by `device.getStorages()`. -/
structure StorageInfo where
  id : Nat
  description : String
deriving DecidableEq, Repr

/-- Modelled from the spec: the device-side state behind the provider
primitives.  `store` is the flat id-addressed object store, `nextId` the
fresh-identifier allocator.  `forcedConflicts` injects provider-chosen
conflict-sentinel outcomes for `Create_Folder` (the sentinel is
provider-specific and may occur without a visible same-named entry);
`renameFailIds` and `renameLieIds` inject the rename-status outcomes the
trust-but-verify discussion allows (a nonzero status, and a zero status
reported without the rename actually being applied). -/
structure Dev where
  store : List RawFile
  nextId : Nat
  forcedConflicts : List (String × Nat)
  renameFailIds : List Nat
  renameLieIds : List Nat
  storages : Option (List StorageInfo)
deriving Repr

/-- Process-wide wrapper state: device handle presence, selected storage
and the process working directory consulted by `path.resolve`. -/
structure Ctx where
  device : Bool
  storageId : Nat
  cwd : String
deriving DecidableEq, Repr

/-- The canonical node built by `__listMtpFileTree` (the `fileInfo`
object); `dateAdded` keeps the raw `modificationDate` timestamp (the
`moment` formatting is an external library detail). -/
structure Node where
  id : Nat
  name : String
  size : Nat
  isFolder : Bool
  parentId : Nat
  type : Nat
  storageId : Nat
  path : String
  extension : Option String
  dateAdded : Nat
  children : List Node

/-- A local-side node as consumed by `uploadFileTree` (produced by the
local enumeration: id is the path hash, unused by the upload walk). -/
structure LNode where
  id : Int
  name : String
  size : Nat
  isFolder : Bool
  path : String
  children : List LNode

/-- Result data of `resolvePath`: either the bare root-properties object
`{ id: FILES_AND_FOLDERS_ROOT }` or a full listed node. -/
inductive PathProps where
  | root
  | node (n : Node)

/-- The `id` field read off a `resolvePath` result (`foundItem.id`). -/
def PathProps.id : PathProps → Nat
  | .root => FILES_AND_FOLDERS_ROOT
  | .node n => n.id

/-- The `isFolder` field read off a `resolvePath` result; the bare root
object has no such field, which JavaScript reads as a falsy value. -/
def PathProps.folderFlag : PathProps → Bool
  | .root => false
  | .node n => n.isFolder

/-- Result data of `getFileInfo`: either a path-resolution result or the
raw metadata object from `Get_Filemetadata`. -/
inductive GFI where
  | props (p : PathProps)
  | meta (f : RawFile)

/-- Result data of `fileExists`: the JavaScript `false` (no entry), a
found listed node, or a path-resolution result from the path branch. -/
inductive FE where
  | noEntry
  | entry (n : Node)
  | resolved (p : PathProps)

/-- Result of a mutating operation: outcome, updated device store, and
the provider calls issued (in order). -/
structure MtpOut (α : Type) where
  res : Except Err α
  dev : Dev
  calls : List PCall

/-! ### Model of the `path` module (POSIX, as used by the wrapper) -/

/-- Model of `String.prototype.split('/')`, over the character list. -/
def splitSlashCh : List Char → List Char → List String
  | cur, [] => [String.mk cur.reverse]
  | cur, '/' :: rest => String.mk cur.reverse :: splitSlashCh [] rest
  | cur, ch :: rest => splitSlashCh (ch :: cur) rest

/-- Model of `String.prototype.split('/')`. -/
def splitSlash (s : String) : List String := splitSlashCh [] s.data

/-- Whether a path string is absolute (starts with a slash). -/
def isAbs (s : String) : Bool :=
  match s.data with
  | '/' :: _ => true
  | _ => false

/-- Segment normalisation of Node's `path.normalize`: drops empty and
dot segments and lets `..` pop (kept literally in relative paths that
climb above their start). -/
def normSegs (absolute : Bool) : List String → List String → List String
  | acc, [] => acc.reverse
  | acc, s :: rest =>
    if s = "" ∨ s = "." then normSegs absolute acc rest
    else if s = ".." then
      match acc with
      | t :: ts =>
        if t = ".." then normSegs absolute (".." :: t :: ts) rest
        else normSegs absolute ts rest
      | [] =>
        if absolute then normSegs absolute [] rest
        else normSegs absolute [".."] rest
    else normSegs absolute (s :: acc) rest

/-- Joins path segments back with slashes. -/
def joinSegs : List String → String
  | [] => ""
  | [s] => s
  | s :: rest => s ++ "/" ++ joinSegs rest

/-- Renders normalised segments as a path string. -/
def renderPath (absolute : Bool) (segs : List String) : String :=
  if absolute then
    match segs with
    | [] => "/"
    | _ => "/" ++ joinSegs segs
  else
    match segs with
    | [] => "."
    | _ => joinSegs segs

/-- Model of Node's `path.normalize` for the slash-separated paths the
wrapper handles. -/
def normalizePath (s : String) : String :=
  renderPath (isAbs s) (normSegs (isAbs s) [] (splitSlash s))

/-- Model of Node's single-argument `path.resolve`: an absolute path is
normalised; a relative one is resolved against the working directory. -/
def pathResolveJS (cwd p : String) : String :=
  if isAbs p then normalizePath p else normalizePath (cwd ++ "/" ++ p)

/-- Model of Node's two-argument `path.join`. -/
def pathJoin (a b : String) : String :=
  if a == "" then normalizePath b
  else if b == "" then normalizePath a
  else normalizePath (a ++ "/" ++ b)

/-- Model of Node's `path.basename`. -/
def pathBasename (p : String) : String :=
  match ((splitSlash p).filter (fun s => !(s == ""))).getLast? with
  | some s => s
  | none => if isAbs p then "/" else ""

/-- Model of Node's `path.dirname`. -/
def pathDirname (p : String) : String :=
  let segs := (splitSlash p).filter (fun s => !(s == ""))
  match segs with
  | [] => if isAbs p then "/" else "."
  | _ =>
    match segs.dropLast with
    | [] => if isAbs p then "/" else "."
    | init => if isAbs p then "/" ++ joinSegs init else joinSegs init

/-- Index of the last dot in a character list, if any. -/
def lastDotIdx : List Char → Nat → Option Nat → Option Nat
  | [], _, best => best
  | c :: rest, i, best => lastDotIdx rest (i + 1) (if c == '.' then some i else best)

/-- The `ext` field of Node's `path.parse`: extension of the basename,
empty when there is no dot or the only dot leads the name. -/
def extOf (fileName : String) : String :=
  let b := pathBasename fileName
  match lastDotIdx b.data 0 none with
  | some i => if i == 0 then "" else String.mk (b.data.drop i)
  | none => ""

/-- Source `getExtension`: `null` for folders, else the parsed extension
(the source's null-check on `path.parse` is vestigial, it never fires). -/
def getExtension (fileName : String) (isFolder : Bool) : Option String :=
  if isFolder then none else some (extOf fileName)

/-! ### The hidden-name test -/

/-- One position of the regular expression `(^|\/)\.[^\/\.]`: a dot here
followed by a character that is neither a slash nor a dot. -/
def hiddenMatchAt : List Char → Bool
  | '.' :: c2 :: _ => !(c2 == '/') && !(c2 == '.')
  | _ => false

/-- Scanning all positions of the subject, tracking whether the current
position follows the start or a slash. -/
def hiddenScan : Bool → List Char → Bool
  | _, [] => false
  | boundary, c :: rest =>
    (boundary && hiddenMatchAt (c :: rest)) || hiddenScan (c == '/') rest

/-- Model of `/(^|\/)\.[^\/\.]/.test(name)`, the hidden-entry filter of
`__listMtpFileTree`. -/
def hiddenTest (s : String) : Bool := hiddenScan true s.data

/-! ### Provider primitives (modelled from the spec, §6) -/

/-- Modelled from the spec: `Get_Files_And_Folders` lists the immediate
entries under a folder identifier. -/
def getFilesAndFolders (d : Dev) (folderId : Nat) : List RawFile :=
  d.store.filter (fun f => f.parentId == folderId)

/-- Whether `Create_Folder` reports the conflict sentinel for this name
and parent: a same-named entry exists, or the provider chooses to. -/
def conflictsOn (d : Dev) (name : String) (parentId : Nat) : Bool :=
  d.forcedConflicts.contains (name, parentId)
    || d.store.any (fun f => f.name == name && f.parentId == parentId)

/-- Modelled from the spec: `Create_Folder` returns a fresh identifier,
or the zero conflict sentinel (leaving the store untouched). -/
def createFolderPrim (d : Dev) (name : String) (parentId sid : Nat) : Nat × Dev :=
  if conflictsOn d name parentId then (0, d)
  else
    (d.nextId,
     { d with
        store := d.store ++ [⟨d.nextId, name, 0, FILETYPE_FOLDER, parentId, sid, 0⟩],
        nextId := d.nextId + 1 })

/-- Modelled from the spec: `Destroy_file` removes the entry with the
given identifier. -/
def destroyPrim (d : Dev) (fileId : Nat) : Dev :=
  { d with store := d.store.filter (fun f => !(f.id == fileId)) }

/-- Modelled from the spec: the status code `Destroy_file` reports. -/
def destroyCode : Nat := 0

/-- Modelled from the spec: `Send_File_From_File` stores a new file
entry named after the source basename and reports status zero. -/
def sendPrim (d : Dev) (filePath : String) (parentId size sid : Nat) : Nat × Dev :=
  (0,
   { d with
      store := d.store ++
        [⟨d.nextId, pathBasename filePath, size, FILETYPE_UNKNOWN, parentId, sid, 0⟩],
      nextId := d.nextId + 1 })

/-- Modelled from the spec: `Set_File_Name` renames the entry and
reports a status code; the injected outcome lists cover a failing
provider (nonzero status, nothing applied) and a lying one (zero status,
nothing applied). -/
def setFileNamePrim (d : Dev) (fileId : Nat) (newName : String) : Nat × Dev :=
  if d.renameLieIds.contains fileId then (0, d)
  else if d.renameFailIds.contains fileId then (1, d)
  else
    (0,
     { d with
        store := d.store.map (fun f => if f.id == fileId then { f with name := newName } else f) })

/-- Modelled from the spec: `Get_File_To_File` transfers the object to a
local file and reports status zero. -/
def getFileToFilePrim (_fileId : Nat) (_dest : String) : Nat := 0

/-! ### Device-side enumeration (`__listMtpFileTree`) -/

/-- Children and recursion calls of a listed entry: present only when the
entry is a folder and the walk is recursive; a failed recursive call is
discarded by the source (its partial pushes, none in this model, stay). -/
def listedChildren (recurse : Nat → String → Except Err (List Node) × List PCall)
    (rec : Bool) (f : RawFile) (fullPath : String) : List Node × List PCall :=
  if (f.type == FILETYPE_FOLDER) && rec then
    match recurse f.id fullPath with
    | (.ok l, calls) => (l, calls)
    | (.error _, calls) => ([], calls)
  else ([], [])

/-- The `fileInfo` object pushed for one raw entry when no recursion
happens below it. -/
def simpleNode (pp : String) (f : RawFile) : Node :=
  ⟨f.id, f.name, f.size, f.type == FILETYPE_FOLDER, f.parentId, f.type, f.storageId,
   pathJoin pp f.name, getExtension (pathJoin pp f.name) (f.type == FILETYPE_FOLDER),
   f.modificationDate, []⟩

/-- The `fileInfo` object pushed for one raw entry, children filled in by
the recursive call when the entry is a folder and the walk is recursive. -/
def mkListedNode (recurse : Nat → String → Except Err (List Node) × List PCall)
    (rec : Bool) (pp : String) (f : RawFile) : Node :=
  { simpleNode pp f with
      children := (listedChildren recurse rec f (pathJoin pp f.name)).1 }

/-- The per-entry loop of `__listMtpFileTree`: skips hidden names when
asked, builds the node, recurses into subfolders via `recurse` (which the
source invokes without forwarding `ignoreHiddenFiles`). -/
def listLoop (recurse : Nat → String → Except Err (List Node) × List PCall)
    : List RawFile → Bool → String → Bool → List Node × List PCall
  | [], _, _, _ => ([], [])
  | f :: fs, rec, pp, ih =>
    if ih && hiddenTest f.name then listLoop recurse fs rec pp ih
    else
      let node := mkListedNode recurse rec pp f
      let subCalls := (listedChildren recurse rec f (pathJoin pp f.name)).2
      let r := listLoop recurse fs rec pp ih
      (node :: r.1, subCalls ++ r.2)

/-- Source `__listMtpFileTree`: device guard, one `Get_Files_And_Folders`
call, then the entry loop; the result extends the accumulator that the
source receives as `fileTreeStructure`.  The recursive sub-call passes
`recursive` and the entry's full path but not `ignoreHiddenFiles`. -/
def mtpListTree (c : Ctx) (d : Dev)
    : Nat → Nat → Bool → List Node → String → Bool → Except Err (List Node) × List PCall
  | 0, _, _, _, _, _ => (.error .fuel, [])
  | fuel + 1, folderId, rec, acc, pp, ih =>
    if c.device = false then (.error .noMtp, []) else
    let files := getFilesAndFolders d folderId
    let r := listLoop (fun fid pth => mtpListTree c d fuel fid rec [] pth false) files rec pp ih
    (.ok (acc ++ r.1), .listCall folderId :: r.2)

/-- The listing a recursive step of `__listMtpFileTree` uses at a given
fuel level (definitionally the loop `mtpListTree` runs at `fuel + 1`). -/
def listStep (c : Ctx) (d : Dev) (fuel : Nat) (rec : Bool)
    : List RawFile → String → Bool → List Node × List PCall :=
  fun files pp ih =>
    listLoop (fun fid pth => mtpListTree c d fuel fid rec [] pth false) files rec pp ih

/-- Nodes carried by a listing result (empty on error). -/
def listedNodes (r : Except Err (List Node) × List PCall) : List Node :=
  match r.1 with
  | .ok l => l
  | .error _ => []

/-! ### Path resolution (`resolvePath`) -/

/-- The segment-walk of `resolvePath`: list the current identifier's
children non-recursively, pick the first child with the segment's name,
descend or fail with the not-found error. -/
def resolveLoop (c : Ctx) (d : Dev)
    : List String → PathProps → Except Err PathProps × List PCall
  | [], found => (.ok found, [])
  | item :: rest, found =>
    let o := mtpListTree c d 1 found.id false [] "" false
    match o.1 with
    | .error e => (.error e, o.2)
    | .ok lst =>
      match lst.find? (fun nd => nd.name == item) with
      | none => (.error .invalidNotFound, o.2)
      | some nd =>
        let r := resolveLoop c d rest (.node nd)
        (r.1, o.2 ++ r.2)

/-- Source `resolvePath`: device guard, null guard, normalisation by
`path.resolve`, the root shortcut, then the segment walk starting after
the leading empty chunk. -/
def resolvePath (c : Ctx) (d : Dev) (filePath : Option String)
    : Except Err PathProps × List PCall :=
  if c.device = false then (.error .noMtp, []) else
  match filePath with
  | none => (.error .invalidPathResolve, [])
  | some fp =>
    let p := pathResolveJS c.cwd fp
    if p == "/" then (.ok .root, [])
    else resolveLoop c d ((splitSlash p).drop 1) .root

/-! ### Metadata and existence (`getFileInfo`, `fileExists`) -/

/-- Source `getFileInfo`: the path branch defers to `resolvePath`; the
id branch reads `Get_Filemetadata` and fails when nothing comes back
(the source's separate null-name check cannot fire in the model, where a
returned entry always carries a name). -/
def getFileInfo (c : Ctx) (d : Dev) (filePath : Option String) (fileId : Nat)
    : Except Err GFI × List PCall :=
  if c.device = false then (.error .noMtp, []) else
  match filePath with
  | some _ =>
    let r := resolvePath c d filePath
    (match r.1 with
     | .error e => .error e
     | .ok p => .ok (.props p), r.2)
  | none =>
    let fileInfo := d.store.find? (fun f => f.id == fileId)
    (match fileInfo with
     | none => .error .fileInfoFailed
     | some f => .ok (.meta f), [.metaCall fileId])

/-- Source `fileExists`: the path branch defers to `resolvePath`; the
name branch lists the parent non-recursively and picks the first node
with the requested name (a null name matches nothing). -/
def fileExists (c : Ctx) (d : Dev) (filePath fileName : Option String) (parentId : Nat)
    : Except Err FE × List PCall :=
  if c.device = false then (.error .noMtp, []) else
  match filePath with
  | some _ =>
    let r := resolvePath c d filePath
    (match r.1 with
     | .error e => .error e
     | .ok p => .ok (.resolved p), r.2)
  | none =>
    let o := mtpListTree c d 1 parentId false [] "" false
    match o.1 with
    | .error e => (.error e, o.2)
    | .ok lst =>
      match (match fileName with
             | none => none
             | some n => lst.find? (fun nd => nd.name == n)) with
      | none => (.ok .noEntry, o.2)
      | some nd => (.ok (.entry nd), o.2)

/-! ### Mutating single-object operations -/

/-- Source `deleteFile`: optional path resolution, then `Destroy_file`
on the chosen identifier; the destroy itself always reports success. -/
def deleteFile (c : Ctx) (d : Dev) (filePath : Option String) (fileId : Nat) : MtpOut Bool :=
  if c.device = false then ⟨.error .noMtp, d, []⟩ else
  match filePath with
  | some _ =>
    let r := resolvePath c d filePath
    match r.1 with
    | .error e => ⟨.error e, d, r.2⟩
    | .ok p => ⟨.ok true, destroyPrim d p.id, r.2 ++ [.deleteCall p.id]⟩
  | none => ⟨.ok true, destroyPrim d fileId, [.deleteCall fileId]⟩

/-- The tail of `renameFile` after the guards and optional resolution:
call `Set_File_Name`; on a nonzero status re-read the metadata and fail
with the rename error when the name does not match (a failed metadata
read falls through to success, as in the source). -/
def renameCore (c : Ctx) (d : Dev) (fid : Nat) (nn : String) (pre : List PCall) : MtpOut Bool :=
  let r := setFileNamePrim d fid nn
  let calls := pre ++ [.renameCall fid nn]
  if r.1 != 0 then
    let g := getFileInfo c r.2 none fid
    match g.1 with
    | .error _ => ⟨.ok true, r.2, calls ++ g.2⟩
    | .ok (.meta f) =>
      if f.name != nn then ⟨.error .renameFailed, r.2, calls ++ g.2⟩
      else ⟨.ok true, r.2, calls ++ g.2⟩
    | .ok (.props _) => ⟨.error .renameFailed, r.2, calls ++ g.2⟩
  else ⟨.ok true, r.2, calls⟩

/-- Source `renameFile`: device guard; illegal-name guard (null, a
slash, or only whitespace); optional path resolution; then the rename
with its conditional verification. -/
def renameFile (c : Ctx) (d : Dev) (filePath newfileName : Option String) (fileId : Nat)
    : MtpOut Bool :=
  if c.device = false then ⟨.error .noMtp, d, []⟩ else
  match newfileName with
  | none => ⟨.error .illegalFileName, d, []⟩
  | some nn =>
    if nn.data.contains '/' || nn.data.all Char.isWhitespace then
      ⟨.error .illegalFileName, d, []⟩
    else
      match filePath with
      | some _ =>
        let r := resolvePath c d filePath
        match r.1 with
        | .error e => ⟨.error e, d, r.2⟩
        | .ok p => renameCore c d p.id nn r.2
      | none => renameCore c d fileId nn []

/-! ### Folder creation (`createFolder`) -/

/-- The tail of `createFolder` after `Create_Folder` returned: on the
zero sentinel look the name up under the parent; nothing found is the
folder-creation failure, a file is the file-shadow conflict, a folder's
identifier is returned as if freshly created. -/
def afterCreate (c : Ctx) (d : Dev) (created : Nat) (name : String) (pid : Nat)
    (pre : List PCall) : MtpOut Nat :=
  if created == 0 then
    let fe := fileExists c d none (some name) pid
    match fe.1 with
    | .error e => ⟨.error e, d, pre ++ fe.2⟩
    | .ok .noEntry => ⟨.error .createFolderFailed, d, pre ++ fe.2⟩
    | .ok (.entry n) =>
      if n.isFolder = false then ⟨.error .createFolderFileFailed, d, pre ++ fe.2⟩
      else ⟨.ok n.id, d, pre ++ fe.2⟩
    | .ok (.resolved p) =>
      if p.folderFlag = false then ⟨.error .createFolderFileFailed, d, pre ++ fe.2⟩
      else ⟨.ok p.id, d, pre ++ fe.2⟩
  else ⟨.ok created, d, pre⟩

/-- Source `createFolder`: device guard; either resolve the parent of a
full path and create under it, or create the given name under the given
parent; then the conflict-sentinel handling. -/
def createFolder (c : Ctx) (d : Dev) (newFolderPath : Option String) (parentId : Nat)
    (newFolderName : String) : MtpOut Nat :=
  if c.device = false then ⟨.error .noMtp, d, []⟩ else
  match newFolderPath with
  | some p0 =>
    let p := pathResolveJS c.cwd p0
    let name := pathBasename p
    let parentPath := pathDirname p
    let r := resolvePath c d (some parentPath)
    match r.1 with
    | .error e => ⟨.error e, d, r.2⟩
    | .ok props =>
      let cr := createFolderPrim d name props.id c.storageId
      afterCreate c cr.2 cr.1 name props.id (r.2 ++ [.createCall name props.id])
  | none =>
    let cr := createFolderPrim d newFolderName parentId c.storageId
    afterCreate c cr.2 cr.1 newFolderName parentId [.createCall newFolderName parentId]

/-! ### Storage listing and release -/

/-- JavaScript object insertion `storageData[storage.id] = storage`:
replaces an entry with the same id, else appends. -/
def storageUpsert (m : List StorageInfo) (s : StorageInfo) : List StorageInfo :=
  if m.any (fun t => t.id == s.id) then m.map (fun t => if t.id == s.id then s else t)
  else m ++ [s]

/-- Source `listStorageDevices`: device guard, one `Get_Storage` call,
then the id-keyed map of `device.getStorages()` (absent list means the
no-storage error). -/
def listStorageDevices (c : Ctx) (d : Dev) : Except Err (List StorageInfo) × List PCall :=
  if c.device = false then (.error .noMtp, []) else
  match d.storages with
  | none => (.error .noStorage, [.getStorageCall])
  | some storageList => (.ok (storageList.foldl storageUpsert []), [.getStorageCall])

/-- Source `releaseDevice` (second class): device guard, release call,
and the handle is cleared. -/
def releaseDevice (c : Ctx) (_d : Dev) : Except Err Bool × Ctx × List PCall :=
  if c.device = false then (.error .noMtp, c, []) else
  (.ok true, { c with device := false }, [.releaseCall])

/-! ### Byte transfer -/

/-- Source `downloadFile`: device guard, `Get_File_To_File`, and the
failure check on a nonzero status. -/
def downloadFile (c : Ctx) (file : Node) (destinationFilePath : String)
    : Except Err Nat × List PCall :=
  if c.device = false then (.error .noMtp, []) else
  let downloadedFile := getFileToFilePrim file.id destinationFilePath
  if downloadedFile != 0 then
    (.error .downloadFileFailed, [.getFileCall file.id destinationFilePath])
  else (.ok downloadedFile, [.getFileCall file.id destinationFilePath])

/-- The per-node loop of `downloadFileTree`: folders get a local mkdir
(always successful in the model, as `mkdirp` is idempotent) and a
recursive descent, files a `downloadFile`; the first error aborts. -/
def downloadNodes (c : Ctx) (recurse : List Node → String → Except Err Bool × List PCall)
    : List Node → String → Except Err Bool × List PCall
  | [], _ => (.ok true, [])
  | item :: rest, dest =>
    let localFilePath := pathJoin dest item.name
    if item.isFolder then
      let sub := recurse item.children localFilePath
      match sub.1 with
      | .error e => (.error e, .mkdirCall localFilePath :: sub.2)
      | .ok _ =>
        let r := downloadNodes c recurse rest dest
        (r.1, .mkdirCall localFilePath :: sub.2 ++ r.2)
    else
      let dl := downloadFile c item localFilePath
      match dl.1 with
      | .error e => (.error e, dl.2)
      | .ok _ =>
        let r := downloadNodes c recurse rest dest
        (r.1, dl.2 ++ r.2)

/-- Source `downloadFileTree`: device guard, then the empty-root check
(`rootNode` with no nodes is the nothing-to-transfer error), then the
node loop; recursive descent re-enters with `rootNode` unset. -/
def downloadFileTree (c : Ctx) : Nat → Bool → List Node → String → Except Err Bool × List PCall
  | 0, _, _, _ => (.error .fuel, [])
  | fuel + 1, rootNode, nodes, destinationFilePath =>
    if c.device = false then (.error .noMtp, []) else
    if rootNode && nodes.length < 1 then (.error .noFilesCopied, []) else
    downloadNodes c (fun ns dest => downloadFileTree c fuel false ns dest) nodes destinationFilePath

/-- Source `uploadFile`: device guard, `Send_File_From_File` with the
basename of the local path, and the failure check on a nonzero status. -/
def uploadFile (c : Ctx) (d : Dev) (filePath : String) (parentId size : Nat) : MtpOut Nat :=
  if c.device = false then ⟨.error .noMtp, d, []⟩ else
  let sent := sendPrim d filePath parentId size c.storageId
  if sent.1 != 0 then ⟨.error .uploadFileFailed, sent.2, [.sendCall filePath parentId]⟩
  else ⟨.ok sent.1, sent.2, [.sendCall filePath parentId]⟩

/-- The per-node loop of `uploadFileTree`: a folder is created (or its
conflict resolved) and its children recursed into under the resulting
identifier; a file is looked up by name under the destination parent,
a found entry deleted, and the bytes then sent; the first error aborts. -/
def uploadNodes (c : Ctx) (recurse : Dev → List LNode → Nat → MtpOut Bool)
    : Dev → List LNode → Nat → MtpOut Bool
  | d, [], _ => ⟨.ok true, d, []⟩
  | d, item :: rest, pid =>
    if item.isFolder then
      let cf := createFolder c d none pid item.name
      match cf.res with
      | .error e => ⟨.error e, cf.dev, cf.calls⟩
      | .ok newId =>
        let u := recurse cf.dev item.children newId
        match u.res with
        | .error e => ⟨.error e, u.dev, cf.calls ++ u.calls⟩
        | .ok _ =>
          let r := uploadNodes c recurse u.dev rest pid
          ⟨r.res, r.dev, cf.calls ++ u.calls ++ r.calls⟩
    else
      let fe := fileExists c d none (some item.name) pid
      match fe.1 with
      | .error e => ⟨.error e, d, fe.2⟩
      | .ok feData =>
        match (match feData with
               | .noEntry => none
               | .entry n => some n.id
               | .resolved p => some p.id) with
        | some fid =>
          let del := deleteFile c d none fid
          match del.res with
          | .error e => ⟨.error e, del.dev, fe.2 ++ del.calls⟩
          | .ok _ =>
            let up := uploadFile c del.dev item.path pid item.size
            match up.res with
            | .error e => ⟨.error e, up.dev, fe.2 ++ del.calls ++ up.calls⟩
            | .ok _ =>
              let r := uploadNodes c recurse up.dev rest pid
              ⟨r.res, r.dev, fe.2 ++ del.calls ++ up.calls ++ r.calls⟩
        | none =>
          let up := uploadFile c d item.path pid item.size
          match up.res with
          | .error e => ⟨.error e, up.dev, fe.2 ++ up.calls⟩
          | .ok _ =>
            let r := uploadNodes c recurse up.dev rest pid
            ⟨r.res, r.dev, fe.2 ++ up.calls ++ r.calls⟩

/-- Source `uploadFileTree`: device guard; an optional destination path
is resolved once to an identifier; then the node loop, whose recursive
descent re-enters `uploadFileTree` with the new parent identifier. -/
def uploadFileTree (c : Ctx) : Nat → Dev → List LNode → Option String → Nat → MtpOut Bool
  | 0, d, _, _, _ => ⟨.error .fuel, d, []⟩
  | fuel + 1, d, nodes, folderPath, parentId =>
    if c.device = false then ⟨.error .noMtp, d, []⟩ else
    match folderPath with
    | none => uploadNodes c (fun d2 ns pid2 => uploadFileTree c fuel d2 ns none pid2) d nodes parentId
    | some fp =>
      let r := resolvePath c d (some (pathResolveJS c.cwd fp))
      match r.1 with
      | .error e => ⟨.error e, d, r.2⟩
      | .ok p =>
        let u := uploadNodes c (fun d2 ns pid2 => uploadFileTree c fuel d2 ns none pid2) d nodes p.id
        ⟨u.res, u.dev, r.2 ++ u.calls⟩

/-- The node loop `uploadFileTree` runs at a given fuel level. -/
def uploadStep (c : Ctx) (fuel : Nat) : Dev → List LNode → Nat → MtpOut Bool :=
  uploadNodes c (fun d2 ns pid2 => uploadFileTree c fuel d2 ns none pid2)

/-! ### The first MTP class (where it differs) -/

namespace MTPv1

/-- Source `releaseDevice` of the first class: device guard and release
call, but the handle is left untouched. -/
def releaseDevice (c : Ctx) (_d : Dev) : Except Err Unit × Ctx × List PCall :=
  if c.device = false then (.error .noMtp, c, []) else
  (.ok (), c, [.releaseCall])

/-- Source `deleteFile` of the first class: device guard, then the raw
`Destroy_file` result is returned directly. -/
def deleteFile (c : Ctx) (d : Dev) (fileId : Nat) : Except Err Nat × Dev × List PCall :=
  if c.device = false then (.error .noMtp, d, []) else
  (.ok destroyCode, destroyPrim d fileId, [.deleteCall fileId])

end MTPv1

/-! ### Helper definitions for the statements -/

/-- First raw entry with a given name under a given parent (what the
name search of `fileExists` finds, at the raw level). -/
def lookupRaw (d : Dev) (parentId : Nat) (n : String) : Option RawFile :=
  (getFilesAndFolders d parentId).find? (fun f => f.name == n)

/-- The node a successful non-root resolution carries. -/
def resolvedNode (r : Except Err PathProps × List PCall) : Option Node :=
  match r.1 with
  | .ok (.node n) => some n
  | _ => none

/-- Top-level names of a listed tree paired with the names of each
node's immediate children. -/
def twoLevelNames (l : List Node) : List (String × List String) :=
  l.map (fun nd => (nd.name, nd.children.map Node.name))

/-! ### Concrete states used by counterexamples and witnesses -/

/-- A connected session at the filesystem root. -/
def ctxOn : Ctx := ⟨true, 1, "/"⟩

/-- A session with no device handle (before acquisition). -/
def ctxOff : Ctx := ⟨false, 1, "/"⟩

/-- Device of the resolve scenario: root folder `a` (id 5) containing
file `b` (id 9, 120 bytes). -/
def devAB : Dev :=
  ⟨[⟨5, "a", 0, FILETYPE_FOLDER, FILES_AND_FOLDERS_ROOT, 1, 0⟩,
    ⟨9, "b", 120, 1, 5, 1, 0⟩], 100, [], [], [], some []⟩

/-- Device with a root folder `d` (id 2) containing the hidden-named
file `.h` (id 3). -/
def devHidden : Dev :=
  ⟨[⟨2, "d", 0, FILETYPE_FOLDER, FILES_AND_FOLDERS_ROOT, 1, 0⟩,
    ⟨3, ".h", 7, 1, 2, 1, 0⟩], 100, [], [], [], some []⟩

/-- Device of the upload-conflict scenario: destination folder `dst`
(id 10) already containing a folder `sub` (id 21). -/
def devSub : Dev :=
  ⟨[⟨10, "dst", 0, FILETYPE_FOLDER, FILES_AND_FOLDERS_ROOT, 1, 0⟩,
    ⟨21, "sub", 0, FILETYPE_FOLDER, 10, 1, 0⟩], 50, [], [], [], some []⟩

/-- Local folder `sub` with one file, to upload under `dst`. -/
def itemSub : LNode := ⟨0, "sub", 0, true, "/l/sub", [⟨1, "x.txt", 5, false, "/l/sub/x.txt", []⟩]⟩

/-- Device with a file `x.txt` (id 7) under folder id 10. -/
def devColl : Dev := ⟨[⟨7, "x.txt", 3, 1, 10, 1, 0⟩], 50, [], [], [], some []⟩

/-- Local file `x.txt`, colliding with the device entry of `devColl`. -/
def itemColl : LNode := ⟨0, "x.txt", 5, false, "/l/x.txt", []⟩

/-- Device whose rename primitive reports success for id 4 without
applying the rename. -/
def devLie : Dev := ⟨[⟨4, "old", 3, 1, FILES_AND_FOLDERS_ROOT, 1, 0⟩], 10, [], [], [4], some []⟩

/-- Device whose rename primitive reports a nonzero status for id 4 and
leaves the name unchanged. -/
def devStuck : Dev := ⟨[⟨4, "old", 3, 1, FILES_AND_FOLDERS_ROOT, 1, 0⟩], 10, [], [4], [], some []⟩

/-- Empty device store. -/
def devEmpty : Dev := ⟨[], 1, [], [], [], some []⟩

/-- Session whose working directory is `/x` (for relative resolution). -/
def ctxCwdX : Ctx := ⟨true, 1, "/x"⟩

/-- Empty device whose folder-creation primitive reports the conflict
sentinel for `z` under parent 10 although no such entry exists. -/
def devForced : Dev := ⟨[], 1, [("z", 10)], [], [], some []⟩

/-- A throwaway node for instantiating universally quantified node
arguments. -/
def dummyNode : Node := ⟨0, "", 0, false, 0, 0, 0, "", none, 0, []⟩

/-! ### Basic lemmas about the enumeration loop -/

/-- The names listed by the loop are the names of the entries surviving
the hidden filter, in order. -/
theorem listLoop_map_name (recurse : Nat → String → Except Err (List Node) × List PCall)
    (files : List RawFile) (rec : Bool) (pp : String) (ih : Bool) :
    (listLoop recurse files rec pp ih).1.map Node.name
      = (files.filter (fun f => !(ih && hiddenTest f.name))).map RawFile.name := by
  induction files with
  | nil => simp [listLoop]
  | cons f fs IH =>
    cases ih <;> by_cases hh : hiddenTest f.name = true <;>
      simp [listLoop, hh, List.filter_cons, IH, mkListedNode, simpleNode]

/-- Every node the loop produces comes from a surviving raw entry and is
that entry's listed node. -/
theorem listLoop_mem {recurse : Nat → String → Except Err (List Node) × List PCall}
    {files : List RawFile} {rec : Bool} {pp : String} {ih : Bool} {nd : Node}
    (h : nd ∈ (listLoop recurse files rec pp ih).1) :
    ∃ f ∈ files, nd = mkListedNode recurse rec pp f := by
  induction files with
  | nil => simp [listLoop] at h
  | cons f fs IH =>
    by_cases hf : (ih && hiddenTest f.name) = true
    · rw [listLoop, if_pos hf] at h
      obtain ⟨g, hg, hnd⟩ := IH h
      exact ⟨g, List.mem_cons_of_mem _ hg, hnd⟩
    · rw [listLoop, if_neg hf] at h
      rcases List.mem_cons.mp h with h1 | h2
      · exact ⟨f, List.mem_cons_self _ _, h1⟩
      · obtain ⟨g, hg, hnd⟩ := IH h2
        exact ⟨g, List.mem_cons_of_mem _ hg, hnd⟩

/-- A non-recursive loop issues no calls and maps the surviving entries
to their plain nodes. -/
theorem listLoop_nonrec (recurse : Nat → String → Except Err (List Node) × List PCall)
    (files : List RawFile) (pp : String) (ih : Bool) :
    listLoop recurse files false pp ih
      = ((files.filter (fun f => !(ih && hiddenTest f.name))).map (simpleNode pp), []) := by
  induction files with
  | nil => simp [listLoop]
  | cons f fs IH =>
    cases ih <;> by_cases hh : hiddenTest f.name = true <;>
      simp [listLoop, hh, List.filter_cons, IH, mkListedNode, listedChildren, simpleNode]

/-- One-fuel non-recursive listing: exactly one `Get_Files_And_Folders`
call, and the plain nodes of all immediate children. -/
theorem mtpListTree_one_ok (c : Ctx) (d : Dev) (fid : Nat) (hdev : c.device = true) :
    mtpListTree c d 1 fid false [] "" false
      = (.ok ((getFilesAndFolders d fid).map (simpleNode "")), [.listCall fid]) := by
  rw [mtpListTree, if_neg (by simp [hdev])]
  simp [listLoop_nonrec]

/-- Name search commutes with building plain nodes. -/
theorem find?_name_map_simpleNode (files : List RawFile) (pp : String) (n : String) :
    ((files.map (simpleNode pp)).find? (fun nd => nd.name == n))
      = (files.find? (fun f => f.name == n)).map (simpleNode pp) := by
  induction files with
  | nil => simp
  | cons f fs IH =>
    by_cases h : (f.name == n) = true
    · simp [List.find?_cons, simpleNode, h]
    · simp only [Bool.not_eq_true] at h
      simp [List.find?_cons, simpleNode, h, IH]

/-- The name branch of `fileExists` lists the parent once and returns
the plain node of the first same-named child, if any. -/
theorem fileExists_byName (c : Ctx) (d : Dev) (n : String) (pid : Nat)
    (hdev : c.device = true) :
    fileExists c d none (some n) pid
      = (match lookupRaw d pid n with
         | some f => (.ok (.entry (simpleNode "" f)), [.listCall pid])
         | none => (.ok .noEntry, [.listCall pid])) := by
  rw [fileExists, if_neg (by simp [hdev]), mtpListTree_one_ok c d pid hdev]
  simp only [find?_name_map_simpleNode]
  rw [lookupRaw]
  cases (getFilesAndFolders d pid).find? (fun f => f.name == n) <;> simp

/-! ### Characterisation of the mutating operations -/

/-- With a connected device, deleting by identifier issues exactly the
destroy call. -/
theorem deleteFile_byId (c : Ctx) (d : Dev) (fid : Nat) (hdev : c.device = true) :
    deleteFile c d none fid = ⟨.ok true, destroyPrim d fid, [.deleteCall fid]⟩ := by
  rw [deleteFile, if_neg (by simp [hdev])]

/-- With a connected device, an upload issues exactly the send call and
succeeds (the modelled provider reports status zero). -/
theorem uploadFile_char (c : Ctx) (d : Dev) (fp : String) (pid size : Nat)
    (hdev : c.device = true) :
    uploadFile c d fp pid size
      = ⟨.ok 0, (sendPrim d fp pid size c.storageId).2, [.sendCall fp pid]⟩ := by
  rw [uploadFile, if_neg (by simp [hdev])]
  simp [sendPrim]

/-- A conflicting `Create_Folder` returns the sentinel and leaves the
store untouched. -/
theorem createFolderPrim_conflict (d : Dev) (name : String) (pid sid : Nat)
    (h : conflictsOn d name pid = true) :
    createFolderPrim d name pid sid = (0, d) := by
  rw [createFolderPrim, if_pos h]

/-- Behaviour of `createFolder` when the provider reports the conflict
sentinel: the name is looked up under the parent; no entry is the
folder-creation failure, a file entry is the file-shadow conflict, and a
folder entry's identifier is returned; the store is never modified. -/
theorem createFolder_conflict (c : Ctx) (d : Dev) (name : String) (pid : Nat)
    (hdev : c.device = true) (hconf : conflictsOn d name pid = true) :
    createFolder c d none pid name
      = (match lookupRaw d pid name with
         | none => ⟨.error .createFolderFailed, d, [.createCall name pid, .listCall pid]⟩
         | some f =>
           if (f.type == FILETYPE_FOLDER) = true then
             ⟨.ok f.id, d, [.createCall name pid, .listCall pid]⟩
           else ⟨.error .createFolderFileFailed, d, [.createCall name pid, .listCall pid]⟩) := by
  rw [createFolder, if_neg (by simp [hdev])]
  simp only [createFolderPrim_conflict d name pid c.storageId hconf]
  rw [afterCreate, if_pos (by simp), fileExists_byName c d name pid hdev]
  cases hf : lookupRaw d pid name with
  | none => simp
  | some f =>
    by_cases hft : (f.type == FILETYPE_FOLDER) = true
    · simp [simpleNode, hft]
    · simp only [Bool.not_eq_true] at hft
      simp [simpleNode, hft]

/-! ### Claim C10 -/

/-- C10: when `Create_Folder` reports the zero conflict sentinel but no
entry with the requested name exists under the destination parent,
`createFolder` fails with the distinct folder-creation failure — neither
success nor the file-shadow conflict error. -/
theorem createFolder_sentinel_no_entry_fails (c : Ctx) (d : Dev) (name : String) (pid : Nat)
    (hdev : c.device = true) (hconf : conflictsOn d name pid = true)
    (hnone : lookupRaw d pid name = none) :
    createFolder c d none pid name
      = ⟨.error .createFolderFailed, d, [.createCall name pid, .listCall pid]⟩ := by
  rw [createFolder_conflict c d name pid hdev hconf, hnone]

/-- Witness for C10 at the forced-sentinel device. -/
theorem createFolder_sentinel_no_entry_fails_witness :
    (ctxOn.device = true ∧ conflictsOn devForced "z" 10 = true
        ∧ lookupRaw devForced 10 "z" = none)
      ∧ createFolder ctxOn devForced none 10 "z"
          = ⟨.error .createFolderFailed, devForced, [.createCall "z" 10, .listCall 10]⟩ :=
  ⟨⟨rfl, rfl, rfl⟩, createFolder_sentinel_no_entry_fails ctxOn devForced "z" 10 rfl rfl rfl⟩

/-! ### Claim C3 -/

/-- C3: when uploading a folder node and `Create_Folder` reports the
conflict sentinel, the engine looks the name up under the destination
parent; a same-named folder's identifier is reused as the parent of the
recursive child upload and the store is left unchanged (no duplicate
folder), while a same-named file fails the walk with the file-shadow
conflict error. -/
theorem uploadTree_folder_conflict (c : Ctx) (d : Dev) (pid fuel : Nat)
    (item : LNode) (rest : List LNode) (f : RawFile)
    (hdev : c.device = true) (hfold : item.isFolder = true)
    (hconf : conflictsOn d item.name pid = true)
    (hfind : lookupRaw d pid item.name = some f) :
    ((f.type == FILETYPE_FOLDER) = true →
      createFolder c d none pid item.name
          = ⟨.ok f.id, d, [.createCall item.name pid, .listCall pid]⟩
        ∧ uploadFileTree c (fuel + 1) d (item :: rest) none pid
            = (let u := uploadFileTree c fuel d item.children none f.id
               match u.res with
               | .error e => ⟨.error e, u.dev, [.createCall item.name pid, .listCall pid] ++ u.calls⟩
               | .ok _ =>
                 let r := uploadStep c fuel u.dev rest pid
                 ⟨r.res, r.dev, [.createCall item.name pid, .listCall pid] ++ u.calls ++ r.calls⟩))
    ∧ ((f.type == FILETYPE_FOLDER) = false →
      uploadFileTree c (fuel + 1) d (item :: rest) none pid
        = ⟨.error .createFolderFileFailed, d, [.createCall item.name pid, .listCall pid]⟩) := by
  have hcf : createFolder c d none pid item.name
      = (if (f.type == FILETYPE_FOLDER) = true then
           ⟨.ok f.id, d, [.createCall item.name pid, .listCall pid]⟩
         else ⟨.error .createFolderFileFailed, d, [.createCall item.name pid, .listCall pid]⟩) := by
    have h := createFolder_conflict c d item.name pid hdev hconf
    rw [hfind] at h
    exact h
  constructor
  · intro hft
    rw [if_pos hft] at hcf
    refine ⟨hcf, ?_⟩
    rw [uploadFileTree, if_neg (by simp [hdev])]
    show uploadNodes c _ d (item :: rest) pid = _
    rw [uploadNodes, if_pos hfold, hcf]
    cases hu : (uploadFileTree c fuel d item.children none f.id).res <;>
      simp [hu, uploadStep]
  · intro hft
    rw [if_neg (by simp [hft])] at hcf
    rw [uploadFileTree, if_neg (by simp [hdev])]
    show uploadNodes c _ d (item :: rest) pid = _
    rw [uploadNodes, if_pos hfold, hcf]

/-- Witness for C3: uploading folder `sub` onto a destination already
holding folder `sub` (id 21) reuses id 21 for the child upload. -/
theorem uploadTree_folder_conflict_witness :
    (ctxOn.device = true ∧ itemSub.isFolder = true
        ∧ conflictsOn devSub "sub" 10 = true
        ∧ lookupRaw devSub 10 "sub" = some ⟨21, "sub", 0, FILETYPE_FOLDER, 10, 1, 0⟩)
      ∧ createFolder ctxOn devSub none 10 "sub"
          = ⟨.ok 21, devSub, [.createCall "sub" 10, .listCall 10]⟩ :=
  ⟨⟨rfl, rfl, rfl, rfl⟩,
   ((uploadTree_folder_conflict ctxOn devSub 10 1 itemSub [] _ rfl rfl rfl rfl).1 rfl).1⟩

/-! ### Claim C4 -/

/-- C4: when uploading a file node whose name matches an existing entry
under the destination parent, the existing entry is deleted before the
bytes are sent: the walk's provider-call sequence for that node is the
lookup listing, then the delete of the found entry, then the send, and
only then the calls of the remaining nodes. -/
theorem uploadTree_collision_delete_precedes_send (c : Ctx) (d : Dev) (pid fuel : Nat)
    (item : LNode) (rest : List LNode) (f : RawFile)
    (hdev : c.device = true) (hfile : item.isFolder = false)
    (hfind : lookupRaw d pid item.name = some f) :
    uploadFileTree c (fuel + 1) d (item :: rest) none pid
      = (let d2 := (sendPrim (destroyPrim d f.id) item.path pid item.size c.storageId).2
         let r := uploadStep c fuel d2 rest pid
         ⟨r.res, r.dev, [.listCall pid, .deleteCall f.id, .sendCall item.path pid] ++ r.calls⟩) := by
  have hfe : fileExists c d none (some item.name) pid
      = (.ok (.entry (simpleNode "" f)), [.listCall pid]) := by
    have h := fileExists_byName c d item.name pid hdev
    rw [hfind] at h
    exact h
  rw [uploadFileTree, if_neg (by simp [hdev])]
  show uploadNodes c _ d (item :: rest) pid = _
  rw [uploadNodes, if_neg (by simp [hfile]), hfe]
  simp only [deleteFile_byId c d (simpleNode "" f).id hdev,
    uploadFile_char c (destroyPrim d (simpleNode "" f).id) item.path pid item.size hdev]
  simp [simpleNode, uploadStep]

/-- Witness for C4: uploading `x.txt` onto a destination already holding
`x.txt` (id 7) issues the delete of id 7 strictly before the send. -/
theorem uploadTree_collision_delete_precedes_send_witness :
    (ctxOn.device = true ∧ itemColl.isFolder = false
        ∧ lookupRaw devColl 10 "x.txt" = some ⟨7, "x.txt", 3, 1, 10, 1, 0⟩)
      ∧ uploadFileTree ctxOn 1 devColl [itemColl] none 10
          = (let d2 := (sendPrim (destroyPrim devColl 7) "/l/x.txt" 10 5 ctxOn.storageId).2
             let r := uploadStep ctxOn 0 d2 [] 10
             ⟨r.res, r.dev, [.listCall 10, .deleteCall 7, .sendCall "/l/x.txt" 10] ++ r.calls⟩) :=
  ⟨⟨rfl, rfl, rfl⟩,
   uploadTree_collision_delete_precedes_send ctxOn devColl 10 0 itemColl [] _ rfl rfl rfl⟩

/-! ### Claim C5 -/

/-- C5: a root call of `downloadFileTree` with an empty node list fails
with the nothing-to-transfer error, with no directory creation and no
file download (the call list is empty and nothing was touched). -/
theorem downloadTree_empty_root (c : Ctx) (dest : String) (fuel : Nat)
    (hdev : c.device = true) :
    downloadFileTree c (fuel + 1) true [] dest = (.error .noFilesCopied, []) := by
  rw [downloadFileTree, if_neg (by simp [hdev]), if_pos (by simp)]

/-- Witness for C5 at a concrete destination. -/
theorem downloadTree_empty_root_witness :
    ctxOn.device = true
      ∧ downloadFileTree ctxOn 1 true [] "/out" = (.error .noFilesCopied, []) :=
  ⟨rfl, downloadTree_empty_root ctxOn "/out" 0 rfl⟩

/-! ### Claim C9 -/

/-- C9: resolving the root sentinel path returns the well-known root
identifier immediately, and the provider call list of the resolution is
empty — in particular no enumeration call is issued. -/
theorem resolvePath_root_immediate (c : Ctx) (d : Dev) (hdev : c.device = true) :
    resolvePath c d (some "/") = (.ok .root, []) := by
  rw [resolvePath, if_neg (by simp [hdev])]
  have h : pathResolveJS c.cwd "/" = "/" := by
    rw [pathResolveJS, if_pos (by rfl)]
    rfl
  simp [h]

/-- Witness for C9 at a concrete device. -/
theorem resolvePath_root_immediate_witness :
    ctxOn.device = true ∧ resolvePath ctxOn devAB (some "/") = (.ok .root, []) :=
  ⟨rfl, resolvePath_root_immediate ctxOn devAB rfl⟩

/-! ### Claim C1 -/

/-- C1 counterexample: on the claimed device tree the resolution of
`/a/b` succeeds, but the returned node's `path` is the bare leaf name
`b`, not the claimed full virtual path `/a/b`. -/
theorem resolveAB_path_cex :
    (resolvedNode (resolvePath ctxOn devAB (some "/a/b"))).map Node.path = some "b"
      ∧ (resolvedNode (resolvePath ctxOn devAB (some "/a/b"))).map Node.path ≠ some "/a/b" := by
  refine ⟨rfl, ?_⟩
  intro h
  rw [show (resolvedNode (resolvePath ctxOn devAB (some "/a/b"))).map Node.path = some "b" from rfl] at h
  simp at h

/-- C1 as amended: resolving `/a/b` on that tree returns a node with
identifier 9, size 120, not a folder — and `path` equal to the leaf name
`b`, because the resolver lists children without passing a parent path. -/
theorem resolveAB_amended :
    (resolvedNode (resolvePath ctxOn devAB (some "/a/b"))).map Node.id = some 9
      ∧ (resolvedNode (resolvePath ctxOn devAB (some "/a/b"))).map Node.path = some "b"
      ∧ (resolvedNode (resolvePath ctxOn devAB (some "/a/b"))).map Node.size = some 120
      ∧ (resolvedNode (resolvePath ctxOn devAB (some "/a/b"))).map Node.isFolder = some false :=
  ⟨rfl, rfl, rfl, rfl⟩

/-! ### Claim C2 -/

/-- C2 counterexample: enumerating recursively with the hidden filter
on, the hidden-named entry `.h` inside subfolder `d` still appears in
the resulting tree — exclusion does not happen at depth two. -/
theorem listTree_hidden_depth_cex :
    twoLevelNames (listedNodes
        (mtpListTree ctxOn devHidden 3 FILES_AND_FOLDERS_ROOT true [] "" true))
        = [("d", [".h"])]
      ∧ hiddenTest ".h" = true :=
  ⟨rfl, rfl⟩

/-- C2 as amended: with the hidden filter on, every node of the level
listed by the call itself has a non-hidden name; with the filter off the
listed names are exactly all immediate children; and every folder node
of a recursive listing carries as children the listing of its own
identifier with the filter off — the flag is not forwarded, so deeper
levels are never filtered. -/
theorem listTree_hidden_scope (c : Ctx) (d : Dev) (fid : Nat) (pp : String)
    (rec ih : Bool) (fuel : Nat) (hdev : c.device = true) :
    (∀ nd ∈ listedNodes (mtpListTree c d (fuel + 1) fid rec [] pp true),
        hiddenTest nd.name = false)
      ∧ ((listedNodes (mtpListTree c d (fuel + 1) fid rec [] pp false)).map Node.name
          = (getFilesAndFolders d fid).map RawFile.name)
      ∧ (∀ nd ∈ listedNodes (mtpListTree c d (fuel + 2) fid true [] pp ih),
          nd.isFolder = true →
          nd.children = listedNodes (mtpListTree c d (fuel + 1) nd.id true [] nd.path false)) := by
  refine ⟨?_, ?_, ?_⟩
  · intro nd hnd
    rw [mtpListTree, if_neg (by simp [hdev])] at hnd
    simp only [listedNodes, List.nil_append] at hnd
    have h1 : nd.name ∈ (listLoop (fun fid pth => mtpListTree c d fuel fid rec [] pth false)
        (getFilesAndFolders d fid) rec pp true).1.map Node.name :=
      List.mem_map_of_mem _ hnd
    rw [listLoop_map_name] at h1
    obtain ⟨f, hf, hfn⟩ := List.mem_map.mp h1
    have h2 := List.of_mem_filter hf
    rw [← hfn]
    simpa using h2
  · rw [mtpListTree, if_neg (by simp [hdev])]
    simp only [listedNodes, List.nil_append]
    rw [listLoop_map_name]
    simp
  · intro nd hnd hfold
    rw [mtpListTree, if_neg (by simp [hdev])] at hnd
    simp only [listedNodes, List.nil_append] at hnd
    obtain ⟨f, hf, rfl⟩ := listLoop_mem hnd
    have hft : (f.type == FILETYPE_FOLDER) = true := by
      simpa [mkListedNode, simpleNode] using hfold
    simp only [mkListedNode, simpleNode, listedChildren, hft, Bool.true_and, if_pos]
    cases hrec : mtpListTree c d (fuel + 1) f.id true [] (pathJoin pp f.name) false with
    | mk res calls => cases res <;> simp [listedNodes, hrec]

/-- Witness for C2: at the concrete device the filter-off listing of the
root names every immediate child. -/
theorem listTree_hidden_scope_witness :
    ctxOn.device = true
      ∧ (listedNodes (mtpListTree ctxOn devHidden 1 FILES_AND_FOLDERS_ROOT false [] "" false)).map
          Node.name = ["d"] :=
  ⟨rfl,
   ((listTree_hidden_scope ctxOn devHidden FILES_AND_FOLDERS_ROOT "" false false 0 rfl).2.1).trans
     rfl⟩

/-! ### Claim C6 -/

/-- C6 counterexample: the rename primitive reports status zero without
applying the rename; `renameFile` returns success without any metadata
re-read, although the stored name still differs from the requested one. -/
theorem renameFile_trusted_success_cex :
    (renameFile ctxOn devLie none (some "new") 4).res = .ok true
      ∧ (renameFile ctxOn devLie none (some "new") 4).dev.store.map RawFile.name = ["old"]
      ∧ (setFileNamePrim devLie 4 "new").1 = 0
      ∧ (renameFile ctxOn devLie none (some "new") 4).calls = [.renameCall 4 "new"] :=
  ⟨rfl, rfl, rfl, rfl⟩

/-- C6 as amended: the post-rename verification happens only when the
rename primitive reports a nonzero status — then a name mismatch on the
re-read fails with the rename error; on a zero status the call succeeds
with no verification re-read. -/
theorem renameFile_verify_scope (c : Ctx) (d : Dev) (fid : Nat) (nn : String)
    (hdev : c.device = true)
    (hsl : nn.data.contains '/' = false) (hbl : nn.data.all Char.isWhitespace = false) :
    ((setFileNamePrim d fid nn).1 = 0 →
      renameFile c d none (some nn) fid
        = ⟨.ok true, (setFileNamePrim d fid nn).2, [.renameCall fid nn]⟩)
      ∧ (∀ f : RawFile, (setFileNamePrim d fid nn).1 ≠ 0 →
          (setFileNamePrim d fid nn).2.store.find? (fun g => g.id == fid) = some f →
          f.name ≠ nn →
          renameFile c d none (some nn) fid
            = ⟨.error .renameFailed, (setFileNamePrim d fid nn).2,
               [.renameCall fid nn, .metaCall fid]⟩) := by
  have hsl2 : ¬ '/' ∈ nn.data := by simpa using hsl
  have hg : renameFile c d none (some nn) fid = renameCore c d fid nn [] := by
    rw [renameFile, if_neg (by simp [hdev])]
    simp [hsl2, hbl]
  constructor
  · intro h0
    rw [hg, renameCore]
    simp [h0]
  · intro f hnz hfind hne
    rw [hg, renameCore, if_pos (by simpa using hnz)]
    rw [getFileInfo, if_neg (by simp [hdev])]
    simp only [hfind]
    simp [hne]

/-- Witness for C6: the lying provider yields unverified success, the
failing provider yields the verified rename failure. -/
theorem renameFile_verify_scope_witness :
    renameFile ctxOn devLie none (some "new") 4 = ⟨.ok true, devLie, [.renameCall 4 "new"]⟩
      ∧ renameFile ctxOn devStuck none (some "new") 4
          = ⟨.error .renameFailed, devStuck, [.renameCall 4 "new", .metaCall 4]⟩ := by
  constructor
  · exact (renameFile_verify_scope ctxOn devLie 4 "new" rfl rfl rfl).1 rfl
  · exact (renameFile_verify_scope ctxOn devStuck 4 "new" rfl rfl rfl).2
      ⟨4, "old", 3, 1, FILES_AND_FOLDERS_ROOT, 1, 0⟩ (by decide) rfl (by decide)

/-! ### Claim C7 -/

/-- C7 counterexample: in the first MTP class, `releaseDevice` leaves
the handle set, so a deletion issued after release still reaches the
provider (it succeeds and issues the destroy call) instead of failing
with the no-device error the way a pre-acquisition deletion does. -/
theorem releaseDevice_v1_keeps_handle_cex :
    ((MTPv1.releaseDevice ctxOn devEmpty).2.1).device = true
      ∧ (MTPv1.deleteFile ((MTPv1.releaseDevice ctxOn devEmpty).2.1) devEmpty 5).1 = .ok 0
      ∧ (MTPv1.deleteFile ((MTPv1.releaseDevice ctxOn devEmpty).2.1) devEmpty 5).2.2
          = [.deleteCall 5]
      ∧ (MTPv1.deleteFile ctxOff devEmpty 5).1 = .error .noMtp
      ∧ (MTPv1.deleteFile ctxOff devEmpty 5).2.2 = [] :=
  ⟨rfl, rfl, rfl, rfl, rfl⟩

/-- C7 as amended: in the second MTP class, every modelled device
operation issued with a null handle short-circuits to the no-device
error with no provider call and no state change, and `releaseDevice`
clears the handle, so post-release operations fail exactly like
pre-acquisition ones; the first class lacks the handle-clearing. -/
theorem nullHandle_guard_scope (c con : Ctx) (d : Dev) (fp fn : Option String)
    (fid pid size fuel : Nat) (rec ih rn : Bool) (acc dnodes : List Node)
    (nodes : List LNode) (pp dest fpath nfn : String) (fnode : Node)
    (hoff : c.device = false) (hon : con.device = true) :
    resolvePath c d fp = (.error .noMtp, [])
      ∧ mtpListTree c d (fuel + 1) fid rec acc pp ih = (.error .noMtp, [])
      ∧ fileExists c d fp fn pid = (.error .noMtp, [])
      ∧ getFileInfo c d fp fid = (.error .noMtp, [])
      ∧ listStorageDevices c d = (.error .noMtp, [])
      ∧ deleteFile c d fp fid = ⟨.error .noMtp, d, []⟩
      ∧ renameFile c d fp fn fid = ⟨.error .noMtp, d, []⟩
      ∧ createFolder c d fp pid nfn = ⟨.error .noMtp, d, []⟩
      ∧ uploadFile c d fpath pid size = ⟨.error .noMtp, d, []⟩
      ∧ uploadFileTree c (fuel + 1) d nodes fp pid = ⟨.error .noMtp, d, []⟩
      ∧ downloadFile c fnode dest = (.error .noMtp, [])
      ∧ downloadFileTree c (fuel + 1) rn dnodes dest = (.error .noMtp, [])
      ∧ ((releaseDevice con d).2.1).device = false := by
  refine ⟨?_, ?_, ?_, ?_, ?_, ?_, ?_, ?_, ?_, ?_, ?_, ?_, ?_⟩
  · cases fp <;> rw [resolvePath, if_pos hoff]
  · rw [mtpListTree, if_pos hoff]
  · cases fp <;> rw [fileExists, if_pos hoff]
  · cases fp <;> rw [getFileInfo, if_pos hoff]
  · rw [listStorageDevices, if_pos hoff]
  · cases fp <;> rw [deleteFile, if_pos hoff]
  · cases fn <;> cases fp <;> rw [renameFile, if_pos hoff]
  · cases fp <;> rw [createFolder, if_pos hoff]
  · rw [uploadFile, if_pos hoff]
  · cases fp <;> rw [uploadFileTree, if_pos hoff]
  · rw [downloadFile, if_pos hoff]
  · rw [downloadFileTree, if_pos hoff]
  · rw [releaseDevice, if_neg (by simp [hon])]

/-- Witness for C7 at concrete arguments: the guard fires uniformly
before acquisition, and release clears the handle. -/
theorem nullHandle_guard_scope_witness :
    (ctxOff.device = false ∧ ctxOn.device = true)
      ∧ resolvePath ctxOff devAB (some "/a") = (.error .noMtp, [])
      ∧ deleteFile ctxOff devAB none 5 = ⟨.error .noMtp, devAB, []⟩
      ∧ ((releaseDevice ctxOn devAB).2.1).device = false :=
  ⟨⟨rfl, rfl⟩,
   (nullHandle_guard_scope ctxOff ctxOn devAB (some "/a") none 5 0 0 0 false false false [] []
       [] "" "" "" "" dummyNode rfl rfl).1,
   (nullHandle_guard_scope ctxOff ctxOn devAB (some "/a") none 5 0 0 0 false false false [] []
       [] "" "" "" "" dummyNode rfl rfl).2.2.2.2.2.1,
   (nullHandle_guard_scope ctxOff ctxOn devAB (some "/a") none 5 0 0 0 false false false [] []
       [] "" "" "" "" dummyNode rfl rfl).2.2.2.2.2.2.2.2.2.2.2.2⟩

/-! ### Path normalisation lemmas for claim C8 -/

/-- Splitting after appending a trailing slash just appends one empty
segment. -/
theorem splitSlashCh_append_slash (l cur : List Char) :
    splitSlashCh cur (l ++ ['/']) = splitSlashCh cur l ++ [""] := by
  induction l generalizing cur with
  | nil => simp [splitSlashCh]
  | cons c cs IH =>
    by_cases hc : c = '/'
    · subst hc; simp [splitSlashCh, IH]
    · simp [splitSlashCh, hc, IH]

/-- Segment normalisation ignores one trailing empty segment. -/
theorem normSegs_append_empty (l : List String) :
    ∀ (acc : List String) (ab : Bool), normSegs ab acc (l ++ [""]) = normSegs ab acc l := by
  induction l with
  | nil => intro acc ab; simp [normSegs]
  | cons s rest IH =>
    intro acc ab
    by_cases h1 : s = "" ∨ s = "."
    · simp only [List.cons_append, normSegs, h1]
      simp [IH]
    · by_cases h2 : s = ".."
      · subst h2
        cases acc with
        | nil =>
          simp only [List.cons_append, normSegs, h1]
          cases ab <;> simp [IH]
        | cons t ts =>
          simp only [List.cons_append, normSegs, h1]
          by_cases ht : t = ".." <;> simp [ht, IH]
      · simp only [List.cons_append, normSegs, h1, h2]
        simp [IH]

/-- An absolute path stays absolute after a trailing slash. -/
theorem isAbs_append_slash (s : String) (h : isAbs s = true) : isAbs (s ++ "/") = true := by
  rw [isAbs] at h ⊢
  rw [String.data_append]
  cases hs : s.data with
  | nil => rw [hs] at h; simp at h
  | cons c rest =>
    rw [hs] at h
    revert h
    by_cases hc : c = '/'
    · subst hc; intro _; rfl
    · intro h
      exfalso
      apply hc
      by_contra hne
      simp [hne] at h

/-- Normalisation removes a trailing slash of an absolute path. -/
theorem normalizePath_append_slash (s : String) (h : isAbs s = true) :
    normalizePath (s ++ "/") = normalizePath s := by
  rw [normalizePath, normalizePath, isAbs_append_slash s h, h, splitSlash, splitSlash,
    String.data_append, show ("/" : String).data = ['/'] from rfl,
    splitSlashCh_append_slash, normSegs_append_empty]

/-- The segment walk of `resolvePath` never produces the invalid-path
error: its only failure modes are the provider's and the not-found one. -/
theorem resolveLoop_ne_invalidPath (c : Ctx) (d : Dev) (hdev : c.device = true) :
    ∀ (chunks : List String) (found : PathProps),
      (resolveLoop c d chunks found).1 ≠ .error .invalidPathResolve := by
  intro chunks
  induction chunks with
  | nil => intro found; simp [resolveLoop]
  | cons item rest IH =>
    intro found
    rw [resolveLoop, mtpListTree_one_ok c d found.id hdev]
    cases hfind : ((getFilesAndFolders d found.id).map (simpleNode "")).find?
        (fun nd => nd.name == item) with
    | none => simp [hfind]
    | some nd =>
      simp only [hfind]
      exact IH (.node nd)

/-! ### Claim C8 -/

/-- C8 counterexample: with working directory `/x` and an empty device,
resolving the empty string does not yield the invalid-path error — it is
resolved against the working directory and fails with not-found. -/
theorem resolvePath_empty_cex :
    (resolvePath ctxCwdX devEmpty (some "")).1 = .error .invalidNotFound
      ∧ Err.invalidNotFound ≠ Err.invalidPathResolve :=
  ⟨rfl, by decide⟩

/-- C8 as amended: a null input fails with the invalid-path error, but
an empty-string input passes the null guard: it behaves exactly like
resolving the working directory itself and never produces the
invalid-path error. -/
theorem resolvePath_null_vs_empty (c : Ctx) (d : Dev)
    (hdev : c.device = true) (hcwd : isAbs c.cwd = true) :
    resolvePath c d none = (.error .invalidPathResolve, [])
      ∧ resolvePath c d (some "") = resolvePath c d (some c.cwd)
      ∧ (resolvePath c d (some "")).1 ≠ .error .invalidPathResolve := by
  have hpr : pathResolveJS c.cwd "" = pathResolveJS c.cwd c.cwd := by
    rw [pathResolveJS, pathResolveJS, if_neg (by decide), if_pos hcwd]
    have he : c.cwd ++ "/" ++ "" = c.cwd ++ "/" := by
      apply String.ext
      simp [String.data_append]
    rw [he, normalizePath_append_slash c.cwd hcwd]
  refine ⟨?_, ?_, ?_⟩
  · rw [resolvePath, if_neg (by simp [hdev])]
  · rw [resolvePath, resolvePath, hpr]
  · rw [resolvePath, if_neg (by simp [hdev])]
    by_cases hq : (pathResolveJS c.cwd "" == "/") = true
    · simp [hq]
    · simp only [Bool.not_eq_true] at hq
      simp only [hq, Bool.false_eq_true, if_false]
      exact resolveLoop_ne_invalidPath c d hdev _ .root

/-- Witness for C8 at a concrete working directory and device. -/
theorem resolvePath_null_vs_empty_witness :
    (ctxCwdX.device = true ∧ isAbs ctxCwdX.cwd = true)
      ∧ resolvePath ctxCwdX devEmpty none = (.error .invalidPathResolve, [])
      ∧ resolvePath ctxCwdX devEmpty (some "") = resolvePath ctxCwdX devEmpty (some "/x") :=
  ⟨⟨rfl, rfl⟩, (resolvePath_null_vs_empty ctxCwdX devEmpty rfl rfl).1,
   (resolvePath_null_vs_empty ctxCwdX devEmpty rfl rfl).2.1⟩
